import Mathlib

/-!
Verification development for the phone-buddy repository: a shallow
embedding of the perception engine (`vision.py`), the action executor
(`executor.py`) and the orchestration state machine (`graph_agent.py`),
with theorems settling the specification's claims about them.

Machine integers are modelled as `Nat` (all parsed quantities are
non-negative decimal literals) and as `Int` where the source can produce
negative coordinates.  Fallible device / transport operations are
modelled as `Except String`-valued behaviours supplied as inputs.
-/

namespace PhoneBuddy

/-! ## Perception engine (`vision.py`) -/

/-- Attributes of one node of the raw UI tree, each `Option String`
because the source reads them with `node.get(key, default)`. -/
structure UIAttrs where
  className : Option String
  text : Option String
  contentDesc : Option String
  resourceId : Option String
  boundsAttr : Option String
  clickable : Option String
  scrollable : Option String
  enabled : Option String
  focused : Option String
deriving DecidableEq, Repr

/-- The raw UI tree handed to the perception engine. -/
inductive UINode where
  | node (attrs : UIAttrs) (children : List UINode)
deriving Repr

/-- A parsed rectangle: left, top, right, bottom. -/
structure Rect where
  left : Nat
  top : Nat
  right : Nat
  bottom : Nat
deriving DecidableEq, Repr

/-- A materialized UI element (`vision.py`, `UIElement`). -/
structure UIElement where
  uid : Nat
  elementType : String
  text : String
  contentDesc : String
  resourceId : String
  bounds : Rect
  clickable : Bool
  scrollable : Bool
  enabled : Bool
  focused : Bool
deriving DecidableEq, Repr

/-- Center of an element (`UIElement.get_center`): floor division. -/
def UIElement.getCenter (el : UIElement) : Nat × Nat :=
  ((el.bounds.left + el.bounds.right) / 2, (el.bounds.top + el.bounds.bottom) / 2)

/-- Does the character list `p` occur at the head of `l`? -/
def leadsWith : List Char → List Char → Bool
  | [], _ => true
  | _ :: _, [] => false
  | a :: as, b :: bs => a == b && leadsWith as bs

/-- Substring containment, mirroring Python's `t in class_name`. -/
def strContains (s pat : String) : Bool :=
  (List.range (s.data.length + 1)).any fun i => leadsWith pat.data (s.data.drop i)

/-- Greedy span of decimal digits at the head of a character list. -/
def spanDigits : List Char → List Char × List Char
  | [] => ([], [])
  | c :: cs =>
    if c.isDigit then
      let p := spanDigits cs
      (c :: p.1, p.2)
    else ([], c :: cs)

/-- Decimal value of a digit list. -/
def digitsToNat (ds : List Char) : Nat :=
  ds.foldl (fun n c => n * 10 + (c.toNat - 48)) 0

/-- Parse one or more digits (`\d+` of the bounds regex). -/
def parseNum (cs : List Char) : Option (Nat × List Char) :=
  let p := spanDigits cs
  if p.1.isEmpty then none else some (digitsToNat p.1, p.2)

/-- Consume one expected literal character. -/
def expectChar (c : Char) : List Char → Option (List Char)
  | [] => none
  | x :: xs => if x == c then some xs else none

/-- Anchored match of the regex `\[(\d+),(\d+)\]\[(\d+),(\d+)\]`
(trailing characters are permitted, as with `re.match`). -/
def parseBoundsCore (cs : List Char) : Option (Nat × Nat × Nat × Nat) := do
  let cs ← expectChar '[' cs
  let (l, cs) ← parseNum cs
  let cs ← expectChar ',' cs
  let (t, cs) ← parseNum cs
  let cs ← expectChar ']' cs
  let cs ← expectChar '[' cs
  let (r, cs) ← parseNum cs
  let cs ← expectChar ',' cs
  let (b, cs) ← parseNum cs
  let _ ← expectChar ']' cs
  pure (l, t, r, b)

/-- `VisionModule._parse_bounds`: malformed strings degrade to the zero
rectangle. -/
def parseBounds (s : String) : Rect :=
  match parseBoundsCore s.data with
  | some (l, t, r, b) => ⟨l, t, r, b⟩
  | none => ⟨0, 0, 0, 0⟩

/-- Accumulator pass for the last separator-delimited segment. -/
def lastSegmentAux (sep : Char) : List Char → List Char → List Char
  | [], acc => acc.reverse
  | c :: cs, acc => if c == sep then lastSegmentAux sep cs [] else lastSegmentAux sep cs (c :: acc)

/-- Python `s.split(sep)[-1]`: the last segment of `s` after splitting
on `sep` (the empty string when `s` ends with `sep`). -/
def lastSegment (sep : Char) (s : String) : String :=
  ⟨lastSegmentAux sep s.data []⟩

/-- The fixed allow-list of widget kinds (`meaningful_types`). -/
def meaningfulTypes : List String :=
  ["android.widget.Button",
   "android.widget.EditText",
   "android.widget.TextView",
   "android.widget.ImageButton",
   "android.widget.ImageView",
   "android.widget.CheckBox",
   "android.widget.Switch",
   "android.widget.RadioButton",
   "android.widget.Spinner",
   "android.widget.SeekBar",
   "android.view.View",
   "android.widget.LinearLayout",
   "android.widget.FrameLayout",
   "android.widget.RelativeLayout",
   "androidx.recyclerview.widget.RecyclerView",
   "android.widget.ScrollView",
   "android.widget.ListView"]

/-- `VisionModule._is_meaningful_element`. -/
def isMeaningfulElement (a : UIAttrs) : Bool :=
  let text := a.text.getD ""
  let contentDesc := a.contentDesc.getD ""
  let resourceId := a.resourceId.getD ""
  let clickable := a.clickable.getD "false" == "true"
  let scrollable := a.scrollable.getD "false" == "true"
  let enabled := a.enabled.getD "true" == "true"
  if !enabled then false
  else
    let hasContent := !(text == "") || !(contentDesc == "") || !(resourceId == "")
    let isInteractive := clickable || scrollable
    let className := a.className.getD ""
    let isMeaningfulType := meaningfulTypes.any fun t => strContains className t
    hasContent || (isInteractive && isMeaningfulType)

/-- `VisionModule._parse_node`: on a meaningful node the identifier
counter is incremented first; the node is then materialized only when
its parsed bounds describe a strictly positive area. -/
def parseNode (c : Nat) (a : UIAttrs) : Nat × Option UIElement :=
  if !(isMeaningfulElement a) then (c, none)
  else
    let className := a.className.getD "unknown"
    let simpleType := lastSegment '.' className
    let bounds := parseBounds (a.boundsAttr.getD "[0,0][0,0]")
    if bounds.right ≤ bounds.left ∨ bounds.bottom ≤ bounds.top then (c + 1, none)
    else
      (c + 1, some
        { uid := c + 1
          elementType := simpleType
          text := a.text.getD ""
          contentDesc := a.contentDesc.getD ""
          resourceId := a.resourceId.getD ""
          bounds := bounds
          clickable := a.clickable.getD "false" == "true"
          scrollable := a.scrollable.getD "false" == "true"
          enabled := a.enabled.getD "true" == "true"
          focused := a.focused.getD "false" == "true" })

mutual
/-- `VisionModule._traverse_tree`: depth-first, the node itself before
its children, threading the identifier counter. -/
def traverseTree : UINode → Nat → Nat × List UIElement
  | .node a cs, c =>
    let p := parseNode c a
    let rest := traverseChildren cs p.1
    match p.2 with
    | some el => (rest.1, el :: rest.2)
    | none => (rest.1, rest.2)

/-- Traversal of a child list, left to right. -/
def traverseChildren : List UINode → Nat → Nat × List UIElement
  | [], c => (c, [])
  | n :: ns, c =>
    let p := traverseTree n c
    let q := traverseChildren ns p.1
    (q.1, p.2 ++ q.2)
end

/-- The single-snapshot state of the vision module: the element
registry (`current_elements`) and the identifier counter. -/
structure VisionState where
  currentElements : List UIElement
  uidCounter : Nat
deriving DecidableEq, Repr

/-- `VisionModule.get_ui_state`, restricted to the parts the claims
are about.  The input is `some root` when the tree was obtained and
parsed, `none` when obtaining or parsing it raised.  The registry and
counter are cleared unconditionally before the fallible work begins;
the Boolean reports whether the capture succeeded.  (The foreground
package detection and the summary dict are not modelled: no claim
depends on them, and the package fallback never aborts the capture.) -/
def getUIState (_prev : VisionState) (input : Option UINode) : VisionState × Bool :=
  match input with
  | none => (⟨[], 0⟩, false)
  | some root =>
    let p := traverseTree root 0
    (⟨p.2, p.1⟩, true)

/-- `VisionModule.get_element_by_uid`: first element with the uid. -/
def getElementByUid (els : List UIElement) (uid : Nat) : Option UIElement :=
  els.find? fun el => el.uid == uid

/-! ### Derived counting functions used to state the numbering claim -/

mutual
/-- Number of nodes of the tree that pass the meaningfulness filter. -/
def mcountT : UINode → Nat
  | .node a cs => (if isMeaningfulElement a then 1 else 0) + mcountL cs

/-- Number of meaningful nodes in a forest. -/
def mcountL : List UINode → Nat
  | [] => 0
  | n :: ns => mcountT n + mcountL ns
end

/-- Do the node's parsed bounds describe a strictly positive area? -/
def hasPositiveBounds (a : UIAttrs) : Bool :=
  let b := parseBounds (a.boundsAttr.getD "[0,0][0,0]")
  decide (b.left < b.right) && decide (b.top < b.bottom)

mutual
/-- Every meaningful node of the tree has positive parsed bounds. -/
def goodT : UINode → Bool
  | .node a cs => (!(isMeaningfulElement a) || hasPositiveBounds a) && goodL cs

/-- Every meaningful node of the forest has positive parsed bounds. -/
def goodL : List UINode → Bool
  | [] => true
  | n :: ns => goodT n && goodL ns
end

/-! ## Action executor (`executor.py`) -/

/-- A device command issued over the transport. -/
inductive DevCmd where
  | click (x y : Nat)
  | clearText
  | sendKeys (s : String)
  | infoQuery
  | swipe (x1 y1 x2 y2 : Int)
  | press (button : String)
  | launchApp (pkg : String)
deriving DecidableEq, Repr

/-- Behaviour of the device transport (and of the application-library
collaborator's `launch_app`): each primitive either succeeds or raises
with a message. -/
structure Device where
  clickRes : Nat → Nat → Except String Unit
  clearTextRes : Except String Unit
  sendKeysRes : String → Except String Unit
  infoRes : Except String (Nat × Nat)
  swipeRes : Int → Int → Int → Int → Except String Unit
  pressRes : String → Except String Unit
  launchRes : String → Except String Bool

/-- An abstract action (`brain.py`, `AgentAction`). -/
structure AgentAction where
  action : String
  targetUid : Option Nat
  text : Option String
  appPackage : Option String
  direction : Option String
  message : Option String
deriving DecidableEq, Repr

/-- Python string falsiness of an optional string: `not s`. -/
def pyFalsyStr : Option String → Bool
  | none => true
  | some s => s == ""

/-- Python `s or d` on an optional string. -/
def pyOrStr (o : Option String) (d : String) : String :=
  match o with
  | none => d
  | some s => if s == "" then d else s

/-- `UIElement.get_description`. -/
def getDescription (el : UIElement) : String :=
  let parts : List String :=
    (if el.text ≠ "" then ["\"" ++ el.text ++ "\""] else []) ++
    (if el.contentDesc ≠ "" then ["[" ++ el.contentDesc ++ "]"] else []) ++
    (if el.resourceId ≠ "" then ["(" ++ lastSegment '/' el.resourceId ++ ")"] else [])
  let desc := if parts.isEmpty then el.elementType else String.intercalate " " parts
  let attrs : List String :=
    (if el.clickable then ["clickable"] else []) ++
    (if el.scrollable then ["scrollable"] else [])
  if attrs.isEmpty then desc
  else desc ++ " [" ++ String.intercalate ", " attrs ++ "]"

/-- Result of one executor call: the `(bool, message)` pair together
with the trace of device commands issued, wrapped in `Except` whose
`error` constructor would be an exception escaping to the caller. -/
abbrev ExecResult := Except String ((Bool × String) × List DevCmd)

/-- `ActionExecutor._execute_click`.  The registry lookup and the
center computation happen before the `try` block; only the tap itself
is guarded. -/
def executeClick (d : Device) (reg : List UIElement) (uid? : Option Nat) : ExecResult :=
  match uid? with
  | none => .ok ((false, "No target_uid provided for click action"), [])
  | some uid =>
    match getElementByUid reg uid with
    | none => .ok ((false, "Element with UID " ++ toString uid ++ " not found"), [])
    | some el =>
      let x := el.getCenter.1
      let y := el.getCenter.2
      match d.clickRes x y with
      | .ok _ =>
        .ok ((true, "Clicked on " ++ getDescription el ++ " at (" ++ toString x ++ ", " ++
          toString y ++ ")"), [.click x y])
      | .error e => .ok ((false, "Click failed: " ++ e), [.click x y])

/-- `ActionExecutor._execute_type`: the emptiness check is Python
string falsiness, so `""` is rejected exactly like a missing text. -/
def executeType (d : Device) (text? : Option String) : ExecResult :=
  if pyFalsyStr text? then .ok ((false, "No text provided for type action"), [])
  else
    let t := text?.getD ""
    match d.clearTextRes with
    | .error e => .ok ((false, "Type failed: " ++ e), [.clearText])
    | .ok _ =>
      match d.sendKeysRes t with
      | .error e => .ok ((false, "Type failed: " ++ e), [.clearText, .sendKeys t])
      | .ok _ => .ok ((true, "Typed: " ++ t), [.clearText, .sendKeys t])

/-- Issue the chosen swipe and report (`self.device.swipe(...)` followed
by the success return, both inside the handler's `try`). -/
def swipeAndReport (d : Device) (direction : String) (x1 y1 x2 y2 : Int) : ExecResult :=
  match d.swipeRes x1 y1 x2 y2 with
  | .error e => .ok ((false, "Scroll failed: " ++ e), [.infoQuery, .swipe x1 y1 x2 y2])
  | .ok _ => .ok ((true, "Scrolled " ++ direction), [.infoQuery, .swipe x1 y1 x2 y2])

/-- `ActionExecutor._execute_scroll`: the screen dimensions are read
from the device before the direction is examined. -/
def executeScroll (d : Device) (dir? : Option String) : ExecResult :=
  let direction := pyOrStr dir? "down"
  match d.infoRes with
  | .error e => .ok ((false, "Scroll failed: " ++ e), [.infoQuery])
  | .ok wh =>
    let centerX : Int := ((wh.1 / 2 : Nat) : Int)
    let centerY : Int := ((wh.2 / 2 : Nat) : Int)
    let dist : Int := ((wh.2 / 3 : Nat) : Int)
    if direction == "down" then
      swipeAndReport d direction centerX (centerY + dist) centerX (centerY - dist)
    else if direction == "up" then
      swipeAndReport d direction centerX (centerY - dist) centerX (centerY + dist)
    else if direction == "left" then
      swipeAndReport d direction (centerX + dist) centerY (centerX - dist) centerY
    else if direction == "right" then
      swipeAndReport d direction (centerX - dist) centerY (centerX + dist) centerY
    else .ok ((false, "Invalid scroll direction: " ++ direction), [.infoQuery])

/-- `ActionExecutor._execute_open_app`. -/
def executeOpenApp (d : Device) (pkg? : Option String) : ExecResult :=
  if pyFalsyStr pkg? then .ok ((false, "No app_package provided for open_app action"), [])
  else
    let pkg := pkg?.getD ""
    match d.launchRes pkg with
    | .error e => .ok ((false, "Open app failed: " ++ e), [.launchApp pkg])
    | .ok true => .ok ((true, "Opened " ++ pkg), [.launchApp pkg])
    | .ok false => .ok ((false, "Failed to open " ++ pkg), [.launchApp pkg])

/-- `ActionExecutor._execute_back`. -/
def executeBack (d : Device) : ExecResult :=
  match d.pressRes "back" with
  | .error e => .ok ((false, "Back failed: " ++ e), [.press "back"])
  | .ok _ => .ok ((true, "Pressed back"), [.press "back"])

/-- `ActionExecutor._execute_home`. -/
def executeHome (d : Device) : ExecResult :=
  match d.pressRes "home" with
  | .error e => .ok ((false, "Home failed: " ++ e), [.press "home"])
  | .ok _ => .ok ((true, "Pressed home"), [.press "home"])

/-- `ActionExecutor.execute`: string dispatch on the action kind. -/
def execute (d : Device) (reg : List UIElement) (a : AgentAction) : ExecResult :=
  if a.action == "click" then executeClick d reg a.targetUid
  else if a.action == "type" then executeType d a.text
  else if a.action == "scroll" then executeScroll d a.direction
  else if a.action == "open_app" then executeOpenApp d a.appPackage
  else if a.action == "back" then executeBack d
  else if a.action == "home" then executeHome d
  else if a.action == "wait" then .ok ((true, "Waited 2 seconds"), [])
  else if a.action == "done" then .ok ((true, "Task completed"), [])
  else if a.action == "respond" then .ok ((true, pyOrStr a.message "No message"), [])
  else if a.action == "ask" then .ok ((true, pyOrStr a.message "No question"), [])
  else .ok ((false, "Unknown action: " ++ a.action), [])

/-- The ten recognized action kinds. -/
def knownActions : List String :=
  ["click", "type", "scroll", "open_app", "back", "home", "wait", "done", "respond", "ask"]

/-- The six action kinds that reach for the device transport. -/
def deviceActions : List String :=
  ["click", "type", "scroll", "open_app", "back", "home"]

/-- A device behaviour on which every primitive raises `e`. -/
def failDev (e : String) : Device where
  clickRes := fun _ _ => .error e
  clearTextRes := .error e
  sendKeysRes := fun _ => .error e
  infoRes := .error e
  swipeRes := fun _ _ _ _ => .error e
  pressRes := fun _ => .error e
  launchRes := fun _ => .error e

/-! ## Orchestration state machine (`graph_agent.py`) -/

/-- Run status values of the agent state. -/
inductive Status where
  | running
  | completed
  | needsInput
  | error
deriving DecidableEq, Repr

/-- One tool invocation of an oracle reply. -/
structure ToolCall where
  name : String
  args : String
  id : String
deriving DecidableEq, Repr

/-- A conversation turn. -/
inductive Msg where
  | human (content : String)
  | sys (content : String)
  | ai (content : String) (toolCalls : List ToolCall)
  | toolMsg (content : String) (toolCallId : String)
deriving DecidableEq, Repr

/-- Content of a turn. -/
def msgContent : Msg → String
  | .human c => c
  | .sys c => c
  | .ai c _ => c
  | .toolMsg c _ => c

/-- The graph's `AgentState`, restricted to the fields the nodes and
routers read or write. -/
structure AgentState where
  messages : List Msg
  userGoal : String
  currentScreen : String
  currentApp : String
  stepCount : Nat
  lastAction : Option String
  lastResult : Option String
  status : Status
deriving DecidableEq, Repr

/-- The ten tool names bound into `TOOLS`. -/
def knownTools : List String :=
  ["click_element", "type_text", "scroll_screen", "open_app", "press_back", "press_home",
   "wait_for_screen", "get_screen_state", "search_installed_apps", "list_all_apps"]

/-- Behaviour of one tool invocation at the device: the text result of
`tool.invoke(args)`, or the exception it raised. -/
structure ToolEnv where
  invoke : String → String → Except String String

/-- The `act` node's per-invocation execution: unknown names and raised
exceptions both become result text. -/
def runToolCall (env : ToolEnv) (tc : ToolCall) : String :=
  if tc.name ∈ knownTools then
    match env.invoke tc.name tc.args with
    | .ok r => r
    | .error e => "Error executing " ++ tc.name ++ ": " ++ e
  else "Unknown tool: " ++ tc.name

/-- The `perceive` node: increments the step counter and refreshes the
screen summary (a capture failure arrives here as a diagnostic summary
string chosen by the environment; it never faults the node). -/
def perceive (screen : String) (s : AgentState) : AgentState :=
  { s with stepCount := s.stepCount + 1, currentScreen := screen }

/-- One oracle reply: either a chat reply (free text plus tool calls),
or a communication failure raised by the client. -/
inductive OracleReply where
  | reply (content : String) (toolCalls : List ToolCall)
  | failure (errMsg : String)
deriving Repr

/-- The `reason` node: appends the oracle's reply; a communication
failure appends a diagnostic reply and sets status `error`. -/
def reason (r : OracleReply) (s : AgentState) : AgentState :=
  match r with
  | .reply c tcs => { s with messages := s.messages ++ [.ai c tcs] }
  | .failure e =>
    { s with
      messages := s.messages ++ [.ai ("I encountered an error: " ++ e) []]
      status := .error }

/-- The `act` node: no invocation in the latest reply means the run is
`completed`; otherwise every invocation is executed in order, the
tool results are appended, `last_action` is the first invocation's
name and `last_result` the last appended result's content. -/
def act (env : ToolEnv) (s : AgentState) : AgentState :=
  match s.messages.getLast? with
  | none => { s with status := .error, lastResult := some "No messages to process" }
  | some (.ai _ tcs) =>
    if tcs.isEmpty then { s with status := .completed }
    else
      let results := tcs.map fun tc => Msg.toolMsg (runToolCall env tc) tc.id
      { s with
        messages := s.messages ++ results
        lastAction := tcs.head?.map ToolCall.name
        lastResult := some ((results.getLast?.map msgContent).getD "")
        status := .running }
  | some _ => { s with status := .completed }

/-- `should_continue`: routing after `Reason`. -/
def shouldContinue (s : AgentState) : String :=
  if s.status = .completed ∨ s.status = .error then "end"
  else if s.status = .needsInput then "wait_for_input"
  else
    match s.messages.getLast? with
    | none => "end"
    | some (.ai _ tcs) => if !tcs.isEmpty then "act" else "end"
    | some (.toolMsg _ _) => if s.stepCount ≥ 20 then "end" else "perceive"
    | some _ => "end"

/-- `after_act`: routing after `Act`. -/
def afterAct (s : AgentState) : String :=
  if s.status = .completed then "end"
  else if s.stepCount ≥ 20 then "end"
  else "perceive"

/-- Nodes of the compiled graph (`confirm_actions=False` wiring). -/
inductive NodeId where
  | perceiveNode
  | reasonNode
  | actNode
  | endNode
deriving DecidableEq, Repr

/-- Route-label resolution against the conditional-edge mapping
`\x7b"act": act, "end": END, "perceive": perceive\x7d`.  A label
outside the mapping aborts the host graph, which is likewise terminal,
so it resolves to the end node here. -/
def routeName (r : String) : NodeId :=
  if r = "act" then .actNode
  else if r = "perceive" then .perceiveNode
  else .endNode

/-- The run's environment: what the screen capture, the oracle and the
tool layer return at each step count. -/
structure Oracle where
  screen : Nat → String
  reply : Nat → OracleReply
  tools : Nat → ToolEnv

/-- One micro-step of the compiled graph. -/
def stepMachine (o : Oracle) : NodeId × AgentState → NodeId × AgentState
  | (.perceiveNode, s) => (.reasonNode, perceive (o.screen s.stepCount) s)
  | (.reasonNode, s) =>
    let s' := reason (o.reply s.stepCount) s
    (routeName (shouldContinue s'), s')
  | (.actNode, s) =>
    let s' := act (o.tools s.stepCount) s
    (routeName (afterAct s'), s')
  | (.endNode, s) => (.endNode, s)

/-- Iterated micro-steps. -/
def runSteps (o : Oracle) : Nat → NodeId × AgentState → NodeId × AgentState
  | 0, c => c
  | k + 1, c => runSteps o k (stepMachine o c)

/-! ## Concrete sample inputs used by witnesses and counterexamples -/

/-- A device behaviour on which every primitive succeeds. -/
def devOk : Device where
  clickRes := fun _ _ => .ok ()
  clearTextRes := .ok ()
  sendKeysRes := fun _ => .ok ()
  infoRes := .ok (1080, 1920)
  swipeRes := fun _ _ _ _ => .ok ()
  pressRes := fun _ => .ok ()
  launchRes := fun _ => .ok true

/-- A sample registry element. -/
def elW : UIElement where
  uid := 1
  elementType := "Button"
  text := "Login"
  contentDesc := ""
  resourceId := ""
  bounds := ⟨10, 20, 110, 60⟩
  clickable := true
  scrollable := false
  enabled := true
  focused := false

/-- A click action aimed at identifier 1. -/
def clickActW : AgentAction := ⟨"click", some 1, none, none, none, none⟩

/-- A click action aimed at an identifier absent from any registry. -/
def clickActMissing : AgentAction := ⟨"click", some 77, none, none, none, none⟩

/-- A type action carrying the empty string. -/
def typeActEmpty : AgentAction := ⟨"type", none, some "", none, none, none⟩

/-- A scroll action with an unrecognized direction. -/
def scrollDiag : AgentAction := ⟨"scroll", none, none, none, some "diagonal", none⟩

/-- An action of a kind outside the fixed set. -/
def flyAct : AgentAction := ⟨"fly", none, none, none, none, none⟩

/-- A back action. -/
def backAct : AgentAction := ⟨"back", none, none, none, none, none⟩

/-- Attributes of a meaningful node whose bounds parse to the zero
rectangle. -/
def aZero : UIAttrs :=
  ⟨none, some "x", none, none, some "[0,0][0,0]", none, none, none, none⟩

/-- Attributes of a meaningful node with positive bounds. -/
def aGood : UIAttrs :=
  ⟨none, some "y", none, none, some "[0,0][10,10]", none, none, none, none⟩

/-- Attributes of a disabled node that otherwise carries text. -/
def aDisabled : UIAttrs :=
  ⟨none, some "x", none, none, some "[0,0][10,10]", none, none, some "false", none⟩

/-- Attributes of an allow-listed container with no content and no
interactivity. -/
def aLayout : UIAttrs :=
  ⟨some "android.widget.LinearLayout", none, none, none, some "[0,0][10,10]", none, none,
    none, none⟩

/-- A tree whose root is meaningful but zero-sized, over one meaningful
positive-sized child. -/
def badTree : UINode := .node aZero [.node aGood []]

/-- A tree with a single meaningful, positive-sized node. -/
def exTree : UINode := .node aGood []

/-- The element the capture of `exTree` materializes. -/
def elGood : UIElement :=
  ⟨1, "unknown", "y", "", "", ⟨0, 0, 10, 10⟩, false, false, true, false⟩

/-- A tool environment answering every invocation with a result tagged
by the tool's name. -/
def envTools : ToolEnv := ⟨fun n _ => .ok ("R-" ++ n)⟩

/-- A first tool invocation. -/
def tcBack : ToolCall := ⟨"press_back", "", "call-1"⟩

/-- A second tool invocation. -/
def tcHome : ToolCall := ⟨"press_home", "", "call-2"⟩

/-- A blank agent state, as initialized by `run_task`. -/
def blankState : AgentState :=
  ⟨[], "", "", "", 0, none, none, .running⟩

/-- A state whose latest message is an oracle reply with two tool
invocations. -/
def twoCallState : AgentState :=
  { blankState with messages := [.ai "" [tcBack, tcHome]] }

/-- A running state at the step ceiling whose latest message is an
oracle reply carrying a tool invocation. -/
def ceilingState : AgentState :=
  { blankState with messages := [.ai "" [tcBack]], stepCount := 20 }

/-- An oracle that always replies with free text and no tool calls. -/
def oracleQuiet : Oracle := ⟨fun _ => "", fun _ => .reply "ok" [], fun _ => envTools⟩

/-! ## Theorems -/

/-- C10: a `type` action whose text is the empty string is rejected
exactly like a missing text — `(false, "No text provided for type
action")` — and no device command is issued. -/
theorem type_empty_rejected (d : Device) (reg : List UIElement) (a : AgentAction)
    (hk : a.action = "type") (ht : a.text = none ∨ a.text = some "") :
    execute d reg a = .ok ((false, "No text provided for type action"), []) := by
  rcases ht with h | h <;> simp [execute, executeType, hk, h, pyFalsyStr]

/-- Witness for the C10 theorem at a concrete empty-text action. -/
theorem type_empty_rejected_witness :
    typeActEmpty.action = "type" ∧ (typeActEmpty.text = none ∨ typeActEmpty.text = some "") ∧
    execute devOk [] typeActEmpty = .ok ((false, "No text provided for type action"), []) :=
  ⟨rfl, Or.inr rfl, type_empty_rejected devOk [] typeActEmpty rfl (Or.inr rfl)⟩

/-- C5: a click whose target identifier is missing or absent from the
registry fails with no device command; a click whose identifier
resolves to an element issues exactly one tap, at
`((left+right)/2, (top+bottom)/2)` with floor division. -/
theorem click_center_spec (d : Device) (reg : List UIElement) (a : AgentAction)
    (hk : a.action = "click") :
    (a.targetUid = none →
      execute d reg a = .ok ((false, "No target_uid provided for click action"), [])) ∧
    (∀ uid, a.targetUid = some uid → getElementByUid reg uid = none →
      execute d reg a = .ok ((false, "Element with UID " ++ toString uid ++ " not found"), [])) ∧
    (∀ uid el, a.targetUid = some uid → getElementByUid reg uid = some el →
      ∃ ok msg, execute d reg a = .ok ((ok, msg),
        [DevCmd.click ((el.bounds.left + el.bounds.right) / 2)
          ((el.bounds.top + el.bounds.bottom) / 2)])) := by
  refine ⟨fun h => ?_, fun uid h hreg => ?_, fun uid el h hreg => ?_⟩
  · simp [execute, executeClick, hk, h]
  · simp [execute, executeClick, hk, h, hreg]
  · rcases hc : d.clickRes ((el.bounds.left + el.bounds.right) / 2)
      ((el.bounds.top + el.bounds.bottom) / 2) with e | u
    · exact ⟨false, "Click failed: " ++ e,
        by simp [execute, executeClick, hk, h, hreg, UIElement.getCenter, hc]⟩
    · exact ⟨true, "Clicked on " ++ getDescription el ++ " at (" ++
        toString ((el.bounds.left + el.bounds.right) / 2) ++ ", " ++
        toString ((el.bounds.top + el.bounds.bottom) / 2) ++ ")",
        by simp [execute, executeClick, hk, h, hreg, UIElement.getCenter, hc]⟩

/-- Witness for the C5 theorem: identifier 1 resolves to the sample
element with bounds (10, 20, 110, 60), and the tap lands at (60, 40);
identifier 77 is absent and issues nothing. -/
theorem click_center_spec_witness :
    (∃ ok msg, execute devOk [elW] clickActW = .ok ((ok, msg), [DevCmd.click 60 40])) ∧
    execute devOk [elW] clickActMissing =
      .ok ((false, "Element with UID 77 not found"), []) := by
  constructor
  · have h := (click_center_spec devOk [elW] clickActW rfl).2.2 1 elW rfl rfl
    simpa [elW] using h
  · exact (click_center_spec devOk [elW] clickActMissing rfl).2.1 77 rfl rfl

/-- C7 (amended): a scroll with a present, non-empty, unrecognized
direction returns `(false, "Invalid scroll direction: …")` and issues
no swipe — but only after the screen-dimension query has already been
issued to the device (and if that query itself fails, the result is
`(false, "Scroll failed: …")`). -/
theorem scroll_invalid_direction (d : Device) (reg : List UIElement) (a : AgentAction)
    (dir : String) (hk : a.action = "scroll") (hd : a.direction = some dir)
    (hne : dir ≠ "") (hnot : dir ∉ ["up", "down", "left", "right"]) :
    (∀ wh, d.infoRes = .ok wh →
      execute d reg a = .ok ((false, "Invalid scroll direction: " ++ dir), [DevCmd.infoQuery])) ∧
    (∀ e, d.infoRes = .error e →
      execute d reg a = .ok ((false, "Scroll failed: " ++ e), [DevCmd.infoQuery])) := by
  simp only [List.mem_cons, List.not_mem_nil, or_false, not_or] at hnot
  obtain ⟨h1, h2, h3, h4⟩ := hnot
  constructor
  · intro wh hi
    simp [execute, executeScroll, hk, hd, pyOrStr, hne, hi, h1, h2, h3, h4]
  · intro e hi
    simp [execute, executeScroll, hk, hd, pyOrStr, hne, hi]

/-- Witness for the C7 amended theorem at direction "diagonal" on a
device whose dimension query succeeds. -/
theorem scroll_invalid_direction_witness :
    scrollDiag.action = "scroll" ∧ scrollDiag.direction = some "diagonal" ∧
    execute devOk [] scrollDiag =
      .ok ((false, "Invalid scroll direction: diagonal"), [DevCmd.infoQuery]) :=
  ⟨rfl, rfl,
    (scroll_invalid_direction devOk [] scrollDiag "diagonal" rfl rfl (by decide)
      (by decide)).1 (1080, 1920) rfl⟩

/-- C7 counterexample to the claim as stated: on an unrecognized
direction the failure is reported, yet the trace of device operations
is not empty — the dimension query was issued before the direction
check. -/
theorem scroll_touches_device_counterexample :
    execute devOk [] scrollDiag =
      .ok ((false, "Invalid scroll direction: diagonal"), [DevCmd.infoQuery]) ∧
    ([DevCmd.infoQuery] : List DevCmd) ≠ [] := by
  constructor
  · simp [execute, executeScroll, scrollDiag, devOk, pyOrStr]
  · simp

/-- An `Except` value that reports `isOk` is an `ok`. -/
theorem isOk_exists {ε α : Type} {x : Except ε α} (h : x.isOk = true) : ∃ r, x = .ok r := by
  cases x with
  | ok r => exact ⟨r, rfl⟩
  | error e => simp [Except.isOk, Except.toBool] at h

/-- The click handler never lets an exception escape. -/
theorem executeClick_isOk (d : Device) (reg : List UIElement) (u : Option Nat) :
    (executeClick d reg u).isOk = true := by
  unfold executeClick
  rcases u with _ | uid
  · rfl
  · cases hr : getElementByUid reg uid with
    | none => simp [hr, Except.isOk, Except.toBool]
    | some el =>
      cases hc : d.clickRes el.getCenter.1 el.getCenter.2 <;>
        simp [hr, hc, Except.isOk, Except.toBool]

/-- The type handler never lets an exception escape. -/
theorem executeType_isOk (d : Device) (t : Option String) :
    (executeType d t).isOk = true := by
  unfold executeType
  by_cases hf : pyFalsyStr t = true
  · simp [hf, Except.isOk, Except.toBool]
  · cases hc : d.clearTextRes with
    | error e => simp [hf, hc, Except.isOk, Except.toBool]
    | ok u =>
      cases hs : d.sendKeysRes (t.getD "") <;>
        simp [hf, hc, hs, Except.isOk, Except.toBool]

/-- The swipe step never lets an exception escape. -/
theorem swipeAndReport_isOk (d : Device) (dir : String) (x1 y1 x2 y2 : Int) :
    (swipeAndReport d dir x1 y1 x2 y2).isOk = true := by
  unfold swipeAndReport
  cases hs : d.swipeRes x1 y1 x2 y2 <;> simp [hs, Except.isOk, Except.toBool]

/-- The scroll handler never lets an exception escape. -/
theorem executeScroll_isOk (d : Device) (t : Option String) :
    (executeScroll d t).isOk = true := by
  unfold executeScroll
  cases hi : d.infoRes with
  | error e => simp [hi, Except.isOk, Except.toBool]
  | ok wh =>
    simp only [hi]
    by_cases h1 : pyOrStr t "down" = "down"
    · simp only [h1]; simp [swipeAndReport_isOk]
    · by_cases h2 : pyOrStr t "down" = "up"
      · simp [h1, h2, swipeAndReport_isOk]
      · by_cases h3 : pyOrStr t "down" = "left"
        · simp [h1, h2, h3, swipeAndReport_isOk]
        · by_cases h4 : pyOrStr t "down" = "right"
          · simp [h1, h2, h3, h4, swipeAndReport_isOk]
          · simp [h1, h2, h3, h4, Except.isOk, Except.toBool]

/-- The open-app handler never lets an exception escape. -/
theorem executeOpenApp_isOk (d : Device) (p : Option String) :
    (executeOpenApp d p).isOk = true := by
  unfold executeOpenApp
  by_cases hf : pyFalsyStr p = true
  · simp [hf, Except.isOk, Except.toBool]
  · cases hl : d.launchRes (p.getD "") with
    | error e => simp [hf, hl, Except.isOk, Except.toBool]
    | ok b => cases b <;> simp [hf, hl, Except.isOk, Except.toBool]

/-- The back handler never lets an exception escape. -/
theorem executeBack_isOk (d : Device) : (executeBack d).isOk = true := by
  unfold executeBack
  cases hp : d.pressRes "back" <;> simp [hp, Except.isOk, Except.toBool]

/-- The home handler never lets an exception escape. -/
theorem executeHome_isOk (d : Device) : (executeHome d).isOk = true := by
  unfold executeHome
  cases hp : d.pressRes "home" <;> simp [hp, Except.isOk, Except.toBool]

/-- C4: `execute` always hands its caller an `ok` pair — no exception
escapes any handler; an action kind outside the fixed set yields
`(false, …)` naming the unknown kind; and on a device whose every
primitive raises, every device-touching action kind still comes back
as `(false, message)`. -/
theorem execute_never_raises (d : Device) (reg : List UIElement) (a : AgentAction)
    (e : String) :
    (∃ r, execute d reg a = .ok r) ∧
    (a.action ∉ knownActions →
      execute d reg a = .ok ((false, "Unknown action: " ++ a.action), [])) ∧
    (a.action ∈ deviceActions →
      ∃ msg tr, execute (failDev e) reg a = .ok ((false, msg), tr)) := by
  refine ⟨?_, fun h => ?_, fun h => ?_⟩
  · refine isOk_exists ?_
    unfold execute
    repeat' first
      | rfl
      | exact executeClick_isOk d reg a.targetUid
      | exact executeType_isOk d a.text
      | exact executeScroll_isOk d a.direction
      | exact executeOpenApp_isOk d a.appPackage
      | exact executeBack_isOk d
      | exact executeHome_isOk d
      | split
  · obtain ⟨h1, h2, h3, h4, h5, h6, h7, h8, h9, h10⟩ :
        a.action ≠ "click" ∧ a.action ≠ "type" ∧ a.action ≠ "scroll" ∧
        a.action ≠ "open_app" ∧ a.action ≠ "back" ∧ a.action ≠ "home" ∧
        a.action ≠ "wait" ∧ a.action ≠ "done" ∧ a.action ≠ "respond" ∧
        a.action ≠ "ask" := by
      simpa [knownActions, List.mem_cons, not_or] using h
    simp [execute, h1, h2, h3, h4, h5, h6, h7, h8, h9, h10]
  · simp only [deviceActions, List.mem_cons, List.not_mem_nil, or_false] at h
    rcases h with h | h | h | h | h | h
    · rcases hu : a.targetUid with _ | uid
      · simp [execute, executeClick, h, hu]
      · rcases hr : getElementByUid reg uid with _ | el
        · simp [execute, executeClick, h, hu, hr]
        · simp [execute, executeClick, h, hu, hr, failDev]
    · rcases ht : a.text with _ | t
      · simp [execute, executeType, h, ht, pyFalsyStr]
      · rcases he : (t == "") with _ | _
        · simp [execute, executeType, h, ht, pyFalsyStr, he, failDev]
        · simp [execute, executeType, h, ht, pyFalsyStr, he]
    · simp [execute, executeScroll, h, failDev]
    · rcases hp : a.appPackage with _ | p
      · simp [execute, executeOpenApp, h, hp, pyFalsyStr]
      · rcases he : (p == "") with _ | _
        · simp [execute, executeOpenApp, h, hp, pyFalsyStr, he, failDev]
        · simp [execute, executeOpenApp, h, hp, pyFalsyStr, he]
    · simp [execute, executeBack, h, failDev]
    · simp [execute, executeHome, h, failDev]

/-- Witness for the C4 theorem: the unknown kind "fly" fails naming
the kind, and on an all-failing device a `back` action still returns a
`(false, message)` pair. -/
theorem execute_never_raises_witness :
    (∃ r, execute devOk [] flyAct = .ok r) ∧
    execute devOk [] flyAct = .ok ((false, "Unknown action: fly"), []) ∧
    (∃ msg tr, execute (failDev "boom") [] backAct = .ok ((false, msg), tr)) :=
  ⟨(execute_never_raises devOk [] flyAct "boom").1,
   (execute_never_raises devOk [] flyAct "boom").2.1 (by decide),
   (execute_never_raises devOk [] backAct "boom").2.2 (by decide)⟩

/-- A node that fails the meaningfulness filter is not counted and not
materialized. -/
theorem parseNode_not_meaningful (c : Nat) (a : UIAttrs)
    (h : isMeaningfulElement a = false) : parseNode c a = (c, none) := by
  simp [parseNode, h]

/-- A meaningful node with non-positive parsed area consumes an
identifier but is not materialized. -/
theorem parseNode_skip (c : Nat) (a : UIAttrs) (h : isMeaningfulElement a = true)
    (hp : hasPositiveBounds a = false) : parseNode c a = (c + 1, none) := by
  simp only [hasPositiveBounds, Bool.and_eq_false_iff, decide_eq_false_iff_not,
    not_lt] at hp
  simp [parseNode, h, hp]

/-- A meaningful node with positive parsed area is materialized with the
incremented identifier. -/
theorem parseNode_keep (c : Nat) (a : UIAttrs) (h : isMeaningfulElement a = true)
    (hp : hasPositiveBounds a = true) :
    ∃ el, parseNode c a = (c + 1, some el) ∧ el.uid = c + 1 := by
  simp only [hasPositiveBounds, Bool.and_eq_true, decide_eq_true_eq] at hp
  have hc : ¬((parseBounds (a.boundsAttr.getD "[0,0][0,0]")).right ≤
      (parseBounds (a.boundsAttr.getD "[0,0][0,0]")).left ∨
      (parseBounds (a.boundsAttr.getD "[0,0][0,0]")).bottom ≤
      (parseBounds (a.boundsAttr.getD "[0,0][0,0]")).top) := by
    push_neg
    exact ⟨hp.1, hp.2⟩
  simp [parseNode, h, hc]

/-- Whatever is materialized has strictly positive area. -/
theorem parseNode_some_pos (c c' : Nat) (a : UIAttrs) (el : UIElement)
    (h : parseNode c a = (c', some el)) :
    el.bounds.left < el.bounds.right ∧ el.bounds.top < el.bounds.bottom := by
  cases hm : isMeaningfulElement a with
  | false => simp [parseNode, hm] at h
  | true =>
    by_cases hb : (parseBounds (a.boundsAttr.getD "[0,0][0,0]")).right ≤
        (parseBounds (a.boundsAttr.getD "[0,0][0,0]")).left ∨
        (parseBounds (a.boundsAttr.getD "[0,0][0,0]")).bottom ≤
        (parseBounds (a.boundsAttr.getD "[0,0][0,0]")).top
    · simp [parseNode, hm, hb] at h
    · simp [parseNode, hm, hb] at h
      obtain ⟨h1, h2⟩ := h
      subst h2
      push_neg at hb
      exact ⟨hb.1, hb.2⟩

mutual
/-- Every element collected by the tree traversal has positive area. -/
theorem traverseTree_mem_pos : ∀ (t : UINode) (c : Nat) (el : UIElement),
    el ∈ (traverseTree t c).2 →
    el.bounds.left < el.bounds.right ∧ el.bounds.top < el.bounds.bottom
  | .node a cs, c, el => by
    intro hmem
    rw [traverseTree] at hmem
    rcases hp : (parseNode c a).2 with _ | el0
    · rw [hp] at hmem
      exact traverseChildren_mem_pos cs (parseNode c a).1 el hmem
    · rw [hp] at hmem
      rcases List.mem_cons.mp hmem with rfl | hmem'
      · exact parseNode_some_pos c (parseNode c a).1 a el (by rw [← hp])
      · exact traverseChildren_mem_pos cs (parseNode c a).1 el hmem'

/-- Every element collected by the forest traversal has positive area. -/
theorem traverseChildren_mem_pos : ∀ (l : List UINode) (c : Nat) (el : UIElement),
    el ∈ (traverseChildren l c).2 →
    el.bounds.left < el.bounds.right ∧ el.bounds.top < el.bounds.bottom
  | [], c, el => by
    intro hmem
    simp [traverseChildren] at hmem
  | n :: ns, c, el => by
    intro hmem
    rw [traverseChildren] at hmem
    rcases List.mem_append.mp hmem with h | h
    · exact traverseTree_mem_pos n c el h
    · exact traverseChildren_mem_pos ns (traverseTree n c).1 el h
end

/-- C9: every element materialized by a capture satisfies
`right > left` and `bottom > top`; zero- or negative-area nodes
(including malformed bounds strings, which parse to the zero rectangle)
are never materialized. -/
theorem capture_bounds_positive (prev : VisionState) (input : Option UINode)
    (el : UIElement) (h : el ∈ (getUIState prev input).1.currentElements) :
    el.bounds.left < el.bounds.right ∧ el.bounds.top < el.bounds.bottom := by
  rcases input with _ | root
  · simp [getUIState] at h
  · exact traverseTree_mem_pos root 0 el (by simpa [getUIState] using h)

/-- Witness for the C9 theorem at the concrete one-node tree. -/
theorem capture_bounds_positive_witness :
    elGood ∈ (getUIState ⟨[], 0⟩ (some exTree)).1.currentElements ∧
    (elGood.bounds.left < elGood.bounds.right ∧
      elGood.bounds.top < elGood.bounds.bottom) := by
  have h : (getUIState ⟨[], 0⟩ (some exTree)).1.currentElements = [elGood] := by decide
  have hmem : elGood ∈ (getUIState ⟨[], 0⟩ (some exTree)).1.currentElements := by
    rw [h]; exact List.mem_singleton.mpr rfl
  exact ⟨hmem, capture_bounds_positive ⟨[], 0⟩ (some exTree) elGood hmem⟩

mutual
/-- On a tree whose meaningful nodes all have positive area, the
traversal from counter `c` ends at `c + mcountT t` and hands out
exactly the identifiers `c+1, …, c + mcountT t` in order. -/
theorem traverseTree_uids : ∀ (t : UINode) (c : Nat), goodT t = true →
    (traverseTree t c).1 = c + mcountT t ∧
    (traverseTree t c).2.map UIElement.uid = List.range' (c + 1) (mcountT t)
  | .node a cs, c => by
    intro hg
    rw [goodT] at hg
    simp only [Bool.and_eq_true, Bool.or_eq_true, Bool.not_eq_true'] at hg
    obtain ⟨hma, hgl⟩ := hg
    cases hm : isMeaningfulElement a with
    | false =>
      have hpn := parseNode_not_meaningful c a hm
      have ihc := traverseChildren_uids cs c hgl
      simp only [traverseTree, hpn]
      refine ⟨?_, ?_⟩
      · rw [ihc.1]
        simp [mcountT, hm]
      · rw [ihc.2]
        simp [mcountT, hm]
    | true =>
      have hpos : hasPositiveBounds a = true := by
        rcases hma with h | h
        · rw [hm] at h; cases h
        · exact h
      obtain ⟨el, hpn, huid⟩ := parseNode_keep c a hm hpos
      have ihc := traverseChildren_uids cs (c + 1) hgl
      simp only [traverseTree, hpn]
      refine ⟨?_, ?_⟩
      · rw [ihc.1]
        simp only [mcountT, hm, if_true]
        omega
      · rw [List.map_cons, ihc.2, huid]
        simp only [mcountT, hm, if_true]
        rw [show 1 + mcountL cs = mcountL cs + 1 by omega, List.range'_succ]

/-- Forest version of `traverseTree_uids`. -/
theorem traverseChildren_uids : ∀ (l : List UINode) (c : Nat), goodL l = true →
    (traverseChildren l c).1 = c + mcountL l ∧
    (traverseChildren l c).2.map UIElement.uid = List.range' (c + 1) (mcountL l)
  | [], c => by
    intro h
    simp [traverseChildren, mcountL, List.range']
  | n :: ns, c => by
    intro h
    rw [goodL] at h
    simp only [Bool.and_eq_true] at h
    obtain ⟨h1, h2⟩ := h
    have iht := traverseTree_uids n c h1
    have ihl := traverseChildren_uids ns (traverseTree n c).1 h2
    rw [traverseChildren]
    refine ⟨?_, ?_⟩
    · rw [ihl.1, iht.1, mcountL]
      omega
    · rw [List.map_append, iht.2, ihl.2, iht.1, mcountL]
      rw [show c + mcountT n + 1 = c + 1 + mcountT n by omega,
        show mcountT n + mcountL ns = mcountL ns + mcountT n by omega]
      exact List.range'_append_1 (c + 1) (mcountT n) (mcountL ns)
end

/-- C1 (amended): a capture is a function of the tree alone — the
identifier counter restarts regardless of any prior capture — and
whenever every meaningful node of the tree has positive parsed area
the materialized elements carry exactly the identifiers `1..N` in
traversal order, `N` being the number of materialized elements.
(A meaningful node with zero parsed area consumes an identifier
without being materialized, so in general the identifiers of the
materialized elements are the ranks of their nodes among all
meaningful nodes, not `1..N`.) -/
theorem capture_ids_spec :
    (∀ p q input, getUIState p input = getUIState q input) ∧
    (∀ (p : VisionState) (root : UINode), goodT root = true →
      (getUIState p (some root)).1.currentElements.map UIElement.uid =
        List.range' 1 (getUIState p (some root)).1.currentElements.length) := by
  constructor
  · intro p q input
    rfl
  · intro p root hg
    have h := traverseTree_uids root 0 hg
    have hlen : (traverseTree root 0).2.length = mcountT root := by
      have hc := congrArg List.length h.2
      simpa using hc
    show (traverseTree root 0).2.map UIElement.uid =
      List.range' 1 (traverseTree root 0).2.length
    rw [hlen]
    simpa using h.2

/-- Witness for the C1 amended theorem at the concrete one-node tree:
the capture materializes exactly the identifier sequence `1..N`. -/
theorem capture_ids_spec_witness :
    goodT exTree = true ∧
    (getUIState ⟨[], 0⟩ (some exTree)).1.currentElements.map UIElement.uid =
      List.range' 1 (getUIState ⟨[], 0⟩ (some exTree)).1.currentElements.length :=
  ⟨by decide, capture_ids_spec.2 ⟨[], 0⟩ exTree (by decide)⟩

/-- C1 counterexample to the claim as stated: on a tree whose root is
meaningful but zero-sized, the sole materialized element carries
identifier 2, not the sequence `1..N` (here `[1]`). -/
theorem capture_ids_counterexample :
    (getUIState ⟨[], 0⟩ (some badTree)).1.currentElements.map UIElement.uid ≠
      List.range' 1 (getUIState ⟨[], 0⟩ (some badTree)).1.currentElements.length := by
  decide

/-- C3 (amended): a capture that fails to obtain or parse the tree
leaves the registry empty — the prior contents are discarded at the
start of every capture, not preserved. -/
theorem failed_capture_clears_registry (prev : VisionState) :
    getUIState prev none = (⟨[], 0⟩, false) := rfl

/-- C3 counterexample to the claim as stated: a successful capture of
the one-node tree fills the registry with `elGood`; a following failed
capture leaves the registry empty instead of still holding it. -/
theorem failed_capture_counterexample :
    (getUIState ⟨[], 0⟩ (some exTree)).1 = ⟨[elGood], 1⟩ ∧
    (getUIState ⟨[elGood], 1⟩ none).1.currentElements ≠ [elGood] := by
  exact ⟨by decide, by decide⟩

/-- C6: a node passes the perception filter iff it is enabled and
either carries non-empty text, description or resource identifier, or
is clickable or scrollable and of an allow-listed widget kind (matched
by substring, as the source does); in particular a disabled node never
passes, and a contentless, non-interactive node never passes. -/
theorem meaningful_filter_spec (a : UIAttrs) :
    (isMeaningfulElement a = true ↔
      (a.enabled.getD "true" = "true" ∧
        ((a.text.getD "" ≠ "" ∨ a.contentDesc.getD "" ≠ "" ∨ a.resourceId.getD "" ≠ "") ∨
         ((a.clickable.getD "false" = "true" ∨ a.scrollable.getD "false" = "true") ∧
          ∃ t ∈ meaningfulTypes, strContains (a.className.getD "") t = true)))) ∧
    (a.enabled = some "false" → isMeaningfulElement a = false) ∧
    (a.text.getD "" = "" → a.contentDesc.getD "" = "" → a.resourceId.getD "" = "" →
      a.clickable.getD "false" ≠ "true" → a.scrollable.getD "false" ≠ "true" →
      isMeaningfulElement a = false) := by
  refine ⟨?_, fun h => ?_, fun h1 h2 h3 h4 h5 => ?_⟩
  · unfold isMeaningfulElement
    by_cases he : a.enabled.getD "true" = "true"
    · simp [he, List.any_eq_true]
      tauto
    · simp [he]
  · unfold isMeaningfulElement
    simp [h]
  · unfold isMeaningfulElement
    simp [h1, h2, h3, h4, h5]

/-- Witness for the C6 theorem: a disabled node with text is filtered
out, and an enabled allow-listed container with no content and no
interactivity is filtered out. -/
theorem meaningful_filter_spec_witness :
    isMeaningfulElement aDisabled = false ∧ isMeaningfulElement aLayout = false :=
  ⟨(meaningful_filter_spec aDisabled).2.1 rfl,
   (meaningful_filter_spec aLayout).2.2 rfl rfl rfl (by decide) (by decide)⟩

/-- C8 (amended): an oracle reply with no tool invocation completes the
run; a reply with invocations sets status `running`, takes the
last-action field from the *first* invocation's name, and the
last-result field from the execution result of the *last* invocation
(the two coincide when there is exactly one invocation). -/
theorem act_updates_spec (env : ToolEnv) (s : AgentState) (c : String)
    (tcs : List ToolCall) (hlast : s.messages.getLast? = some (.ai c tcs)) :
    (tcs = [] → (act env s).status = .completed) ∧
    (∀ tc0 tcl, tcs.head? = some tc0 → tcs.getLast? = some tcl →
      (act env s).status = .running ∧
      (act env s).lastAction = some tc0.name ∧
      (act env s).lastResult = some (runToolCall env tcl)) := by
  constructor
  · intro h
    subst h
    simp [act, hlast]
  · intro tc0 tcl h0 hl
    rcases htt : tcs with _ | ⟨t0, ts⟩
    · simp [htt] at h0
    · subst htt
      simp only [List.head?_cons, Option.some.injEq] at h0
      subst h0
      have hres : ((t0 :: ts).map fun tc =>
          Msg.toolMsg (runToolCall env tc) tc.id).getLast? =
          some (Msg.toolMsg (runToolCall env tcl) tcl.id) := by
        rw [List.getLast?_map, hl]
        rfl
      simp only [List.map_cons] at hres
      refine ⟨?_, ?_, ?_⟩
      · simp [act, hlast]
      · simp [act, hlast]
      · simp [act, hlast, hres, msgContent]

/-- Witness for the C8 amended theorem at a two-invocation reply. -/
theorem act_updates_spec_witness :
    twoCallState.messages.getLast? = some (.ai "" [tcBack, tcHome]) ∧
    (act envTools twoCallState).status = .running ∧
    (act envTools twoCallState).lastAction = some tcBack.name ∧
    (act envTools twoCallState).lastResult = some (runToolCall envTools tcHome) :=
  ⟨rfl,
    (act_updates_spec envTools twoCallState "" [tcBack, tcHome] rfl).2
      tcBack tcHome rfl rfl⟩

/-- C8 counterexample to the claim as stated: with two invocations in
the reply, the last-action field names the first invocation but the
last-result field carries the second invocation's result, not the
first's. -/
theorem act_last_result_counterexample :
    (act envTools twoCallState).lastAction = some "press_back" ∧
    runToolCall envTools tcBack = "R-press_back" ∧
    (act envTools twoCallState).lastResult = some "R-press_home" ∧
    (act envTools twoCallState).lastResult ≠ some (runToolCall envTools tcBack) := by
  refine ⟨by decide, by decide, by decide, by decide⟩

/-- Splitting a run of the machine. -/
theorem runSteps_add (o : Oracle) (a b : Nat) (c : NodeId × AgentState) :
    runSteps o (a + b) c = runSteps o b (runSteps o a c) := by
  induction a generalizing c with
  | zero => simp [runSteps, Nat.zero_add]
  | succ n ih =>
    calc runSteps o (n + 1 + b) c = runSteps o ((n + b) + 1) c := by
          rw [show n + 1 + b = (n + b) + 1 by omega]
      _ = runSteps o (n + b) (stepMachine o c) := by rw [runSteps]
      _ = runSteps o b (runSteps o n (stepMachine o c)) := ih _
      _ = runSteps o b (runSteps o (n + 1) c) := by rw [runSteps]

/-- The end node is absorbing. -/
theorem runSteps_end (o : Oracle) (k : Nat) (s : AgentState) :
    runSteps o k (.endNode, s) = (.endNode, s) := by
  induction k with
  | zero => rfl
  | succ n ih =>
    rw [runSteps]
    simpa [stepMachine] using ih

/-- One perceive–reason–act cycle: three micro-steps from the perceive
node either reach the end node, or return to the perceive node with
the step counter incremented and still below the ceiling; either way
the counter has grown by exactly one. -/
theorem cycle_step (o : Oracle) (s : AgentState) :
    ∃ n' s', runSteps o 3 (.perceiveNode, s) = (n', s') ∧
      s'.stepCount = s.stepCount + 1 ∧
      (n' = .endNode ∨ (n' = .perceiveNode ∧ s'.stepCount < 20)) := by
  have h3 : runSteps o 3 (.perceiveNode, s) =
      stepMachine o (stepMachine o (stepMachine o (.perceiveNode, s))) := rfl
  set s1 := perceive (o.screen s.stepCount) s with hs1
  have e1 : stepMachine o (.perceiveNode, s) = (.reasonNode, s1) := rfl
  set s2 := reason (o.reply s1.stepCount) s1 with hs2
  have e2 : stepMachine o (.reasonNode, s1) = (routeName (shouldContinue s2), s2) := rfl
  have reason_step : ∀ (r : OracleReply) (x : AgentState),
      (reason r x).stepCount = x.stepCount := by
    intro r x
    cases r <;> rfl
  have hcount2 : s2.stepCount = s.stepCount + 1 := by
    rw [hs2, reason_step]
    rfl
  obtain ⟨cc, tt, hlast⟩ : ∃ cc tt, s2.messages.getLast? = some (.ai cc tt) := by
    rcases hr : o.reply s1.stepCount with ⟨c, tcs⟩ | e
    · exact ⟨c, tcs, by simp [hs2, reason, hr, List.getLast?_concat]⟩
    · exact ⟨"I encountered an error: " ++ e, [],
        by simp [hs2, reason, hr, List.getLast?_concat]⟩
  by_cases hterm : s2.status = .completed ∨ s2.status = .error
  · have hsc : shouldContinue s2 = "end" := by simp [shouldContinue, hterm]
    have hroute : routeName (shouldContinue s2) = .endNode := by simp [hsc, routeName]
    refine ⟨.endNode, s2, ?_, hcount2, Or.inl rfl⟩
    rw [h3, e1, e2, hroute]
    rfl
  · by_cases hni : s2.status = .needsInput
    · have hsc : shouldContinue s2 = "wait_for_input" := by
        simp [shouldContinue, hterm, hni]
      have hroute : routeName (shouldContinue s2) = .endNode := by simp [hsc, routeName]
      refine ⟨.endNode, s2, ?_, hcount2, Or.inl rfl⟩
      rw [h3, e1, e2, hroute]
      rfl
    · have hsc : shouldContinue s2 = if !tt.isEmpty then "act" else "end" := by
        simp [shouldContinue, hterm, hni, hlast]
      rcases htt : tt with _ | ⟨t0, ts⟩
      · have hroute : routeName (shouldContinue s2) = .endNode := by
          subst htt
          simp [hsc, routeName]
        refine ⟨.endNode, s2, ?_, hcount2, Or.inl rfl⟩
        rw [h3, e1, e2, hroute]
        rfl
      · subst htt
        have hroute : routeName (shouldContinue s2) = .actNode := by
          simp [hsc, routeName]
        set s3 := act (o.tools s2.stepCount) s2 with hs3
        have e3 : stepMachine o (.actNode, s2) =
            (routeName (afterAct s3), s3) := rfl
        have hcount3 : s3.stepCount = s2.stepCount := by
          simp [hs3, act, hlast]
        have hst3 : s3.status = .running := by
          simp [hs3, act, hlast]
        by_cases h20 : s3.stepCount ≥ 20
        · have haa : afterAct s3 = "end" := by simp [afterAct, h20]
          have hroute2 : routeName (afterAct s3) = .endNode := by simp [haa, routeName]
          refine ⟨.endNode, s3, ?_, by omega, Or.inl rfl⟩
          rw [h3, e1, e2, hroute, e3, hroute2]
        · have haa : afterAct s3 = "perceive" := by simp [afterAct, hst3, h20]
          have hroute2 : routeName (afterAct s3) = .perceiveNode := by
            simp [haa, routeName]
          refine ⟨.perceiveNode, s3, ?_, by omega, Or.inr ⟨rfl, by omega⟩⟩
          rw [h3, e1, e2, hroute, e3, hroute2]

/-- From any state needing at most `n` more cycles to hit the ceiling,
the machine reaches the end node in `3n + 3` micro-steps, never pushing
the counter past the ceiling (when it started below it). -/
theorem reach_end (o : Oracle) : ∀ (n : Nat) (s : AgentState), 20 ≤ s.stepCount + n →
    ∃ s', runSteps o (3 * n + 3) (.perceiveNode, s) = (.endNode, s') ∧
      s'.stepCount ≤ s.stepCount + n + 1 ∧ (s.stepCount ≤ 19 → s'.stepCount ≤ 20) := by
  intro n
  induction n with
  | zero =>
    intro s hs
    obtain ⟨n', s', heq, hc, halt⟩ := cycle_step o s
    rcases halt with h | ⟨h, hlt⟩
    · subst h
      exact ⟨s', heq, by omega, fun h19 => by omega⟩
    · omega
  | succ m ih =>
    intro s hs
    obtain ⟨n', s', heq, hc, halt⟩ := cycle_step o s
    have hsplit : 3 * (m + 1) + 3 = 3 + (3 * m + 3) := by ring
    rcases halt with h | ⟨h, hlt⟩
    · subst h
      refine ⟨s', ?_, by omega, fun h19 => by omega⟩
      rw [hsplit, runSteps_add, heq, runSteps_end]
    · subst h
      obtain ⟨s'', heq2, hc2, h19b⟩ := ih s' (by omega)
      refine ⟨s'', ?_, by omega, fun h19 => h19b (by omega)⟩
      rw [hsplit, runSteps_add, heq, heq2]

/-- C2 (amended): once the step counter is at the ceiling, neither
router loops back to Perceive — `after_act` routes to End and
`should_continue` never yields "perceive" (though it may still route an
action-carrying reply to Act); consequently every run starting at step
count 0 reaches the End node within 63 micro-steps with a final step
count of at most 20, whatever the oracle does. -/
theorem step_ceiling_spec :
    (∀ s : AgentState, 20 ≤ s.stepCount →
      shouldContinue s ≠ "perceive" ∧ afterAct s = "end") ∧
    (∀ (o : Oracle) (s : AgentState), s.stepCount = 0 →
      ∃ s', runSteps o 63 (.perceiveNode, s) = (.endNode, s') ∧ s'.stepCount ≤ 20) := by
  constructor
  · intro s h20
    constructor
    · intro hc
      by_cases h1 : s.status = .completed ∨ s.status = .error
      · simp [shouldContinue, h1] at hc
      · by_cases h2 : s.status = .needsInput
        · simp [shouldContinue, h1, h2] at hc
        · rcases hm : s.messages.getLast? with _ | m
          · simp [shouldContinue, h1, h2, hm] at hc
          · cases m with
            | ai c tcs =>
              rcases tcs with _ | ⟨t, ts⟩ <;> simp [shouldContinue, h1, h2, hm] at hc
            | toolMsg c i => simp [shouldContinue, h1, h2, hm, h20] at hc
            | human c => simp [shouldContinue, h1, h2, hm] at hc
            | sys c => simp [shouldContinue, h1, h2, hm] at hc
    · unfold afterAct
      split
      · rfl
      · simp [h20]
  · intro o s h0
    obtain ⟨s', heq, hc, h19⟩ := reach_end o 20 s (by omega)
    have h63 : 3 * 20 + 3 = 63 := by norm_num
    rw [h63] at heq
    exact ⟨s', heq, h19 (by omega)⟩

/-- Witness for the C2 amended theorem: at the concrete ceiling state
the routers avoid Perceive, and a concrete run halts within bound. -/
theorem step_ceiling_spec_witness :
    (shouldContinue ceilingState ≠ "perceive" ∧ afterAct ceilingState = "end") ∧
    (∃ s', runSteps oracleQuiet 63 (.perceiveNode, blankState) = (.endNode, s') ∧
      s'.stepCount ≤ 20) :=
  ⟨step_ceiling_spec.1 ceilingState (by decide),
   step_ceiling_spec.2 oracleQuiet blankState rfl⟩

/-- C2 counterexample to the claim as stated: at the step ceiling,
`should_continue` routes an action-carrying oracle reply to "act",
not to "end". -/
theorem step_ceiling_counterexample :
    20 ≤ ceilingState.stepCount ∧ shouldContinue ceilingState = "act" ∧
    ("act" : String) ≠ "end" :=
  ⟨by decide, by decide, by decide⟩

end PhoneBuddy
